import Mathlib

/-!
# Verification of the reporting-backend API against its specification

Shallow embedding of the `reporting-backend` repository (a Django +
django-ninja REST backend for catastrophe-modelling metadata).  The
routed application is the ninja API assembled in `api/urls.py` from
`api/controllers/{event,report,job}.py` together with the request/response
schemas in `api/schemas/` and the model in `api/models/job.py`.

Numeric conventions of the embedding:
* Python's unbounded `int` is `Int` (or `Nat` where the source value is an
  auto-generated primary key, which Django allocates from 1 upward);
* `float` fields (coordinates, radii, rates) are modelled as `ℚ`: every
  comparison the code performs on them (`<=` range checks, `max <= min`)
  is an IEEE comparison of finite values, which coincides with the
  rational order; no arithmetic is ever performed on them.
* `DateTimeField(auto_now_add/auto_now)` timestamps are modelled by a
  logical clock (`Nat`) on the state; `isoformat()` is modelled by
  `toString` of that clock.  No claim inspects timestamp values.
-/

namespace ReportingBackend

/-! ## Database records

`api/models/event.py` and `api/models/report.py` are not part of the
sources; their records below are *modelled from the spec* (section 3,
DATA MODEL), faithful to the field lists the spec gives and to how the
controllers and serializers in the sources access them.  `api/models/job.py`
*is* in the sources and is embedded exactly. -/

/-- A `RingEvent` row. Modelled from the spec: `api/models/event.py` is
missing; spec §3 gives `RingEvent`: base Event fields (id, name,
description, is_valid) plus latitude ∈ [-90,90], longitude ∈ [-180,180],
radius ≥ 0. -/
structure RingRec where
  id : Nat
  name : String
  description : String
  is_valid : Bool
  latitude : ℚ
  longitude : ℚ
  radius : ℚ
deriving Repr, DecidableEq

/-- A `BoxEvent` row. Modelled from the spec: `api/models/event.py` is
missing; spec §3 gives `BoxEvent`: base Event fields plus
max_lat/min_lat ∈ [-90,90] with max>min and max_lon/min_lon ∈ [-180,180]
with max>min. -/
structure BoxRec where
  id : Nat
  name : String
  description : String
  is_valid : Bool
  max_lat : ℚ
  min_lat : ℚ
  max_lon : ℚ
  min_lon : ℚ
deriving Repr, DecidableEq

/-- A `GeoEvent` row. Modelled from the spec: `api/models/event.py` is
missing; spec §3 gives `GeoEvent`: base Event fields plus optional
country/area/subarea/subarea2 strings. -/
structure GeoRec where
  id : Nat
  name : String
  description : String
  is_valid : Bool
  country : Option String
  area : Option String
  subarea : Option String
  subarea2 : Option String
deriving Repr, DecidableEq

/-- An `EventGroup` row with its many-to-many `events` link set.
Modelled from the spec: `api/models/event.py` is missing; spec §3 gives
`EventGroup`: id, name, set of Event references, created/updated
timestamps. -/
structure GroupRec where
  id : Nat
  name : String
  events : List Nat
  created : Nat
  updated : Nat
deriving Repr, DecidableEq

/-- The scalar fields of a `Report` row: exactly the fields of
`ReportSchemaIn` (`api/schemas/report.py`) other than `event_groups`,
which is what `create_report` stores via
`Report.objects.create(**data.dict(exclude={"event_groups"}))`.
The `Report` model itself (`api/models/report.py`) is missing from the
sources and is modelled from the spec (§3, Report). -/
structure ReportData where
  name : String
  peril : String
  dr : ℚ
  cron : Option String
  cob : Option String
  loss_perspective : String
  is_apply_calibration : Bool
  is_apply_inflation : Bool
  is_tag_outwards_ptns : Bool
  is_location_breakout : Bool
  is_ignore_missing_lat_lon : Bool
  location_breakout_max_events : Int
  location_breakout_max_locations : Int
  priority : String
  ncores : Int
  gross_node_id : Option Int
  net_node_id : Option Int
  rollup_context_id : Option Int
  dynamic_ring_loss_threshold : Int
  blast_radius : Option ℚ
  no_overlap_radius : Option ℚ
  is_valid : Bool
deriving Repr, DecidableEq

/-- A `Report` row with its many-to-many `event_groups` link set.
Modelled from the spec: `api/models/report.py` is missing; spec §3 gives
`Report`: the scalar fields above, a set of EventGroup references, and
timestamps. -/
structure ReportRec where
  id : Nat
  data : ReportData
  event_groups : List Nat
  created : Nat
  updated : Nat
deriving Repr, DecidableEq

/-- A `ReportModifier` row with its many-to-many `reports` link set.
Modelled from the spec: `api/models/report.py` is missing; spec §3 gives
`ReportModifier`: id, optional as-at date, optional fx date, derived
quarter/year/month/day, many-to-many with Report. -/
structure ModifierRec where
  id : Nat
  as_at_date : Option String
  fx_date : Option String
  reports : List Nat
deriving Repr, DecidableEq

/-- A `Job` row, embedded exactly from `api/models/job.py`: the model
declares only `id` (AutoField), `report` (ForeignKey to Report),
`created` and `updated` (DateTimeFields).  It declares **no**
`report_modifier` field and **no** `status` field. -/
structure JobRec where
  id : Nat
  report : Nat
  created : Nat
  updated : Nat
deriving Repr, DecidableEq

/-- The field names declared on the `Job` model (`api/models/job.py`). -/
def jobModelFieldNames : List String := ["id", "report", "created", "updated"]

/-- The keyword arguments `create_job` (`api/controllers/job.py`) passes to
`Job.objects.create`.  Django's `Model.__init__` raises `TypeError` for any
keyword that is not a model field. -/
def jobCreateKwargNames : List String := ["report", "report_modifier", "status"]

/-- The whole database: one list per table plus the auto-increment
counters (Django `AutoField` allocates from 1 upward, one sequence per
table; ring/box/geo events share the base `Event` table's sequence) and
the logical clock used for timestamps.  All tables are kept in insertion
order, which for this schema is ascending-id order. -/
structure State where
  events : List Nat
  rings : List RingRec
  boxes : List BoxRec
  geos : List GeoRec
  groups : List GroupRec
  reports : List ReportRec
  modifiers : List ModifierRec
  jobs : List JobRec
  nextEventId : Nat
  nextGroupId : Nat
  nextReportId : Nat
  nextModifierId : Nat
  nextJobId : Nat
  clock : Nat
deriving Repr, DecidableEq

/-- The empty database every deployment starts from. -/
def initState : State :=
  { events := [], rings := [], boxes := [], geos := [], groups := []
    reports := [], modifiers := [], jobs := []
    nextEventId := 1, nextGroupId := 1, nextReportId := 1
    nextModifierId := 1, nextJobId := 1, clock := 0 }

/-! ## The cron grammar check (`validate_cron`, `api/serializers/event.py`)

`validate_cron` tests the value against the Python regex
`^[0-9*/,-]+\s+[0-9*/,-]+\s+[0-9*/,-]+\s+[0-9*/,-]+\s+[0-9*/,-]+$`:
five non-empty fields over the character class `[0-9*/,-]`, separated by
non-empty whitespace runs, with nothing before or after. -/

/-- A character of the cron field class `[0-9*/,-]`. -/
def isCronChar (c : Char) : Bool :=
  c.isDigit || c = '*' || c = '/' || c = ',' || c = '-'

/-- An ASCII whitespace character as matched by Python's `\s`. -/
def isSpaceChar (c : Char) : Bool :=
  c = ' ' || c = '\t' || c = '\n' || c = '\r' || c = '\x0b' || c = '\x0c'

/-- Left-to-right scan for the anchored five-field cron regex: `k` counts
the fields completed so far and `inField` records whether the previous
character belonged to a field.  A field character outside a field opens
field `k+1`; whitespace is allowed only after at least one field (the
regex is anchored, so no leading separator); any other character rejects;
acceptance requires ending inside the fifth field (no trailing
separator). -/
def cronAux : List Char → Nat → Bool → Bool
  | [], k, inField => inField && k == 5
  | c :: cs, k, inField =>
    if isCronChar c then
      if inField then cronAux cs k true
      else cronAux cs (k + 1) true
    else if isSpaceChar c then
      if inField then cronAux cs k false
      else if k == 0 then false else cronAux cs k false
    else false

/-- Whether a string matches the five-field cron regex of `validate_cron`:
exactly five maximal runs of `[0-9*/,-]` characters separated by
non-empty whitespace runs, with nothing before or after. -/
def cronMatch (value : String) : Bool :=
  cronAux value.toList 0 false

/-- `validate_cron(value)` raises unless the value is falsy (None or the
empty string) or matches the cron regex.  No routed endpoint calls it: it
is referenced only by the DRF `ReportSerializer`, which `api/urls.py`
never mounts. -/
def validate_cron (value : Option String) : Except String Unit :=
  match value with
  | none => .ok ()
  | some v =>
    if v.length = 0 then .ok ()     -- Python: `if value and not re.match(...)`
    else if cronMatch v then .ok ()
    else .error "Invalid cron syntax"

/-! ## Request schemas and their pydantic validation

Each `validate…In` function mirrors the pydantic parsing of the
corresponding `Schema` class: `Field` constraints (`max_length`, `ge`)
and the `@field_validator`s, applied per field in the field-declaration
order of the class.  pydantic hands a `@field_validator` the
already-validated fields in `info.data`; fields declared *after* the one
being validated are absent from it.  Any failure makes django-ninja
answer 422 before the controller body runs; the single error string
below stands for ninja's 422 error body. -/

/-- Input to `create_ring_event` (`RingEventSchemaIn`).  All six fields are
required by the schema: `name`, `description` and the coordinates have no
default and `radius` is declared `Field(..., ge=0)`. -/
structure RingIn where
  name : String
  description : String
  is_valid : Bool
  latitude : ℚ
  longitude : ℚ
  radius : ℚ
deriving Repr, DecidableEq

/-- Pydantic validation of `RingEventSchemaIn`. -/
def validateRingIn (d : RingIn) : Except String Unit :=
  if ¬ d.name.length ≤ 255 then .error "name: String should have at most 255 characters"
  else if ¬ d.description.length ≤ 255 then .error "description: String should have at most 255 characters"
  else if ¬ (-90 ≤ d.latitude ∧ d.latitude ≤ 90) then .error "Latitude must be between -90 and 90 degrees."
  else if ¬ (-180 ≤ d.longitude ∧ d.longitude ≤ 180) then .error "Longitude must be between -180 and 180 degrees."
  else if ¬ 0 ≤ d.radius then .error "radius: Input should be greater than or equal to 0"
  else .ok ()

/-- Input to `create_box_event` (`BoxEventSchemaIn`); field declaration
order is `name, description, is_valid, max_lat, min_lat, max_lon, min_lon`. -/
structure BoxIn where
  name : String
  description : String
  is_valid : Bool
  max_lat : ℚ
  min_lat : ℚ
  max_lon : ℚ
  min_lon : ℚ
deriving Repr, DecidableEq

/-- The `validate_max_lat` validator of `BoxEventSchemaIn`: it compares
against `info.data.get("min_lat")` and silently accepts when that key is
absent. -/
def validate_max_lat (value : ℚ) (data_min_lat : Option ℚ) : Except String Unit :=
  match data_min_lat with
  | some m => if value ≤ m then .error "max_lat must be greater than min_lat." else .ok ()
  | none => .ok ()

/-- The `validate_max_lon` validator of `BoxEventSchemaIn`: it compares
against `info.data.get("min_lon")` and silently accepts when that key is
absent. -/
def validate_max_lon (value : ℚ) (data_min_lon : Option ℚ) : Except String Unit :=
  match data_min_lon with
  | some m => if value ≤ m then .error "max_lon must be greater than min_lon." else .ok ()
  | none => .ok ()

/-- Pydantic validation of `BoxEventSchemaIn`.  `max_lat` is declared
before `min_lat`, so when its validators run, `min_lat` has not been
validated yet and `info.data` does not contain it; `validate_max_lat` is
therefore called with `none` (and likewise `validate_max_lon`): the
cross-field bound checks of the schema never fire. -/
def validateBoxIn (d : BoxIn) : Except String Unit :=
  if ¬ d.name.length ≤ 255 then .error "name: String should have at most 255 characters"
  else if ¬ d.description.length ≤ 255 then .error "description: String should have at most 255 characters"
  else if ¬ (-90 ≤ d.max_lat ∧ d.max_lat ≤ 90) then .error "Latitude must be between -90 and 90 degrees."
  else match validate_max_lat d.max_lat none with
  | .error e => .error e
  | .ok _ =>
    if ¬ (-90 ≤ d.min_lat ∧ d.min_lat ≤ 90) then .error "Latitude must be between -90 and 90 degrees."
    else if ¬ (-180 ≤ d.max_lon ∧ d.max_lon ≤ 180) then .error "Longitude must be between -180 and 180 degrees."
    else match validate_max_lon d.max_lon none with
    | .error e => .error e
    | .ok _ =>
      if ¬ (-180 ≤ d.min_lon ∧ d.min_lon ≤ 180) then .error "Longitude must be between -180 and 180 degrees."
      else .ok ()

/-- Input to `create_geo_event` (`GeoEventSchemaIn`). -/
structure GeoIn where
  name : String
  description : String
  is_valid : Bool
  country : Option String
  area : Option String
  subarea : Option String
  subarea2 : Option String
deriving Repr, DecidableEq

/-- Pydantic validation of `GeoEventSchemaIn` (`max_length=255` on every
string field). -/
def validateGeoIn (d : GeoIn) : Except String Unit :=
  let lenOk : Option String → Bool := fun v => (v.getD "").length ≤ 255
  if ¬ d.name.length ≤ 255 then .error "name: String should have at most 255 characters"
  else if ¬ d.description.length ≤ 255 then .error "description: String should have at most 255 characters"
  else if ¬ (lenOk d.country && lenOk d.area && lenOk d.subarea && lenOk d.subarea2) then
    .error "String should have at most 255 characters"
  else .ok ()

/-- Input to `create_event_group` (`EventGroupCreateSchemaIn`): an optional
name (defaulting to `""`, applied by pydantic before the controller runs)
and a required list of event ids.  The schema declares no validators. -/
structure GroupIn where
  name : String
  event_ids : List Nat
deriving Repr, DecidableEq

/-- Input to `create_report` (`ReportSchemaIn`): the scalar report fields
plus the optional `event_groups` id list. -/
structure ReportIn where
  data : ReportData
  event_groups : Option (List Nat)
deriving Repr, DecidableEq

/-- The `validate_event_groups` validator of `ReportSchemaIn`: for a
truthy (non-None, non-empty) list it queries the EventGroup table and
raises when some id has no row.  Note `ReportSchemaIn` declares **no**
validator for `cron` (or any other field). -/
def validate_event_groups (s : State) (value : Option (List Nat)) : Except String Unit :=
  match value with
  | none => .ok ()
  | some gids =>
    if gids.isEmpty then .ok ()    -- Python truthiness: `if value:`
    else
      let existing := (s.groups.map (·.id)).filter (fun i => gids.contains i)
      if existing.length ≠ gids.length then
        .error ("Invalid event group IDs: " ++ toString (gids.filter (fun i => ¬ existing.contains i)))
      else .ok ()

/-- Input to `create_report_modifier` (`ReportModifierSchemaIn`): it
declares exactly `report_id`, `as_at_date`, `fx_date` — and in particular
no `report_ids` field. -/
structure ModifierIn where
  report_id : Nat
  as_at_date : Option String
  fx_date : Option String
deriving Repr, DecidableEq

/-- The field names `ReportModifierSchemaIn` declares. -/
def modifierSchemaInFieldNames : List String := ["report_id", "as_at_date", "fx_date"]

/-- The status literals of `JobSchemaIn` / `JobStatusUpdateSchemaIn`. -/
def statusLiterals : List String := ["PENDING", "RUNNING", "COMPLETED", "FAILED"]

/-- Input to `create_job` (`JobSchemaIn`): required `report_id`, optional
`report_modifier_id`, and `status` defaulting to `"PENDING"` (modelled as
`none` when the request omits it). -/
structure JobInRaw where
  report_id : Nat
  report_modifier_id : Option Nat
  status : Option String
deriving Repr, DecidableEq

/-- Pydantic validation of `JobSchemaIn`: the `Literal` constraint on
`status` (with its default), `validate_report_id` (queries the Report
table), and `validate_report_modifier_id`, whose `if value:` guard skips
the existence check for a falsy value — `None` or `0`.  Returns the
resolved status. -/
def validateJobIn (s : State) (d : JobInRaw) : Except String String :=
  if ¬ s.reports.any (fun r => r.id == d.report_id) then
    .error ("Invalid report ID: " ++ toString d.report_id)
  else
    match d.report_modifier_id with
    | some mid =>
      if mid ≠ 0 ∧ ¬ s.modifiers.any (fun m => m.id == mid) then
        .error ("Invalid report modifier ID: " ++ toString mid)
      else
        match d.status with
        | none => .ok "PENDING"
        | some st => if statusLiterals.contains st then .ok st
                     else .error "status: Input should be PENDING, RUNNING, COMPLETED or FAILED"
    | none =>
      match d.status with
      | none => .ok "PENDING"
      | some st => if statusLiterals.contains st then .ok st
                   else .error "status: Input should be PENDING, RUNNING, COMPLETED or FAILED"

/-! ## Response schemas -/

/-- A JSON value, for stating which fields a serialized response body
carries. -/
inductive JVal where
  | jint (n : Int)
  | jnum (q : ℚ)
  | jstr (s : String)
  | jbool (b : Bool)
  | jnull
deriving Repr, DecidableEq

/-- `RingEventSchemaOut`: the base `EventSchemaOut` fields (`id`, `name`,
`description`, `is_valid`) extended by `latitude` and `longitude` only —
the class declares no `radius` field. -/
structure RingOut where
  id : Nat
  name : String
  description : String
  is_valid : Bool
  latitude : ℚ
  longitude : ℚ
deriving Repr, DecidableEq

/-- `RingEventSchemaOut.from_orm`: picks the declared fields off the row. -/
def ringRecToOut (r : RingRec) : RingOut :=
  { id := r.id, name := r.name, description := r.description
    is_valid := r.is_valid, latitude := r.latitude, longitude := r.longitude }

/-- The JSON body django-ninja renders for a `RingEventSchemaOut` value:
one member per declared field, in declaration order. -/
def ringOutJson (o : RingOut) : List (String × JVal) :=
  [("id", .jint o.id), ("name", .jstr o.name), ("description", .jstr o.description),
   ("is_valid", .jbool o.is_valid), ("latitude", .jnum o.latitude), ("longitude", .jnum o.longitude)]

/-- `BoxEventSchemaOut`. -/
structure BoxOut where
  id : Nat
  name : String
  description : String
  is_valid : Bool
  max_lat : ℚ
  min_lat : ℚ
  max_lon : ℚ
  min_lon : ℚ
deriving Repr, DecidableEq

/-- `GeoEventSchemaOut`. -/
structure GeoOut where
  id : Nat
  name : String
  description : String
  is_valid : Bool
  country : Option String
  area : Option String
  subarea : Option String
  subarea2 : Option String
deriving Repr, DecidableEq

/-- `EventGroupSchemaOut`. -/
structure GroupOut where
  id : Nat
  name : String
  event_ids : List Nat
  created : String
  updated : String
deriving Repr, DecidableEq

/-- `ReportCreateSchemaOut`: the 201 body of `create_report`. -/
structure ReportCreateOut where
  id : Nat
  name : String
deriving Repr, DecidableEq

/-- `ReportSchemaOut`. -/
structure ReportOut where
  id : Nat
  name : String
  peril : String
  dr : ℚ
  event_groups : List Nat
  cron : Option String
  cob : Option String
  loss_perspective : String
  is_apply_calibration : Bool
  is_apply_inflation : Bool
  is_tag_outwards_ptns : Bool
  is_location_breakout : Bool
  is_ignore_missing_lat_lon : Bool
  location_breakout_max_events : Int
  location_breakout_max_locations : Int
  priority : String
  ncores : Int
  gross_node_id : Option Int
  net_node_id : Option Int
  rollup_context_id : Option Int
  dynamic_ring_loss_threshold : Int
  blast_radius : Option ℚ
  no_overlap_radius : Option ℚ
  is_valid : Bool
  created : String
  updated : String
deriving Repr, DecidableEq

/-- `to_report_schema_out` (`api/controllers/report.py`): copies every
scalar field and reads the linked event-group ids off the m2m relation. -/
def reportToOut (r : ReportRec) : ReportOut :=
  { id := r.id, name := r.data.name, peril := r.data.peril, dr := r.data.dr
    event_groups := r.event_groups, cron := r.data.cron, cob := r.data.cob
    loss_perspective := r.data.loss_perspective
    is_apply_calibration := r.data.is_apply_calibration
    is_apply_inflation := r.data.is_apply_inflation
    is_tag_outwards_ptns := r.data.is_tag_outwards_ptns
    is_location_breakout := r.data.is_location_breakout
    is_ignore_missing_lat_lon := r.data.is_ignore_missing_lat_lon
    location_breakout_max_events := r.data.location_breakout_max_events
    location_breakout_max_locations := r.data.location_breakout_max_locations
    priority := r.data.priority, ncores := r.data.ncores
    gross_node_id := r.data.gross_node_id, net_node_id := r.data.net_node_id
    rollup_context_id := r.data.rollup_context_id
    dynamic_ring_loss_threshold := r.data.dynamic_ring_loss_threshold
    blast_radius := r.data.blast_radius, no_overlap_radius := r.data.no_overlap_radius
    is_valid := r.data.is_valid
    created := toString r.created, updated := toString r.updated }

/-- `PaginatedReportSchemaOut`. -/
structure PaginatedReports where
  items : List ReportOut
  total : Nat
  page : Nat
  per_page : Nat
  total_pages : Nat
deriving Repr, DecidableEq

/-- `JobSchemaOut`. -/
structure JobOut where
  id : Nat
  report_id : Nat
  report_modifier_id : Option Nat
  status : String
  created : String
  updated : String
deriving Repr, DecidableEq

/-- `PaginatedJobSchemaOut`. -/
structure PaginatedJobs where
  items : List JobOut
  total : Nat
  page : Nat
  per_page : Nat
  total_pages : Nat
deriving Repr, DecidableEq

/-- Serializing a stored job into `JobSchemaOut`, as `get_job`,
`list_jobs` and the `create_job`/`update_job_status` return paths do:
the construction reads `job.report_modifier` and `job.status`, neither of
which the `Job` model (`api/models/job.py`) declares, so it raises
`AttributeError` on every row. -/
def jobToOut (_j : JobRec) : Except String JobOut :=
  .error "AttributeError: 'Job' object has no attribute 'report_modifier'"

/-- `ReportWithEventGroupSchemaOut`: the 200 body of
`link_report_to_event_group`. -/
structure ReportGroupLinkOut where
  report_id : Nat
  event_group_id : Nat
deriving Repr, DecidableEq

/-! ## Pagination (`django.core.paginator.Paginator`)

`Paginator.num_pages` is `ceil(max(1, count) / per_page)` (with the
default `allow_empty_first_page=True` and `orphans=0`): an empty
collection still has one (empty) page.  `Paginator.page(n)` raises
`InvalidPage` when `n < 1` or `n > num_pages`; otherwise the page holds
the slice `[(n-1)*per_page : n*per_page]`. -/

/-- `Paginator.num_pages` for `per_page ≥ 1`. -/
def numPages (count perPage : Nat) : Nat := (max 1 count + perPage - 1) / perPage

/-! ## Endpoints

One Lean function per routed handler.  A handler that mutates the
database returns `(response, new state)`; read-only handlers return only
the response.  An uncaught Python exception is rendered by the global
exception handler of `api/urls.py`: `Http404` → 404, Django
`ValidationError` → 422, anything else (including `TypeError`,
`AttributeError` and pydantic's `ValidationError`) → 500; when it escapes
a `transaction.atomic()` block the transaction is rolled back, so the
state is returned unchanged. -/

/-- Responses of `create_ring_event`. -/
inductive CreateRingResp where
  | r201 (body : RingOut)
  | r422 (message : String)
deriving Repr, DecidableEq

/-- `create_ring_event` (`api/controllers/event.py`): schema validation,
then `RingEvent.objects.create(**data.dict())` (which runs no model
validation) and `RingEventSchemaOut.from_orm`. -/
def createRingEvent (s : State) (d : RingIn) : CreateRingResp × State :=
  match validateRingIn d with
  | .error e => (.r422 e, s)
  | .ok _ =>
    let row : RingRec :=
      { id := s.nextEventId, name := d.name, description := d.description
        is_valid := d.is_valid, latitude := d.latitude, longitude := d.longitude
        radius := d.radius }
    (.r201 (ringRecToOut row),
     { s with events := s.events ++ [row.id], rings := s.rings ++ [row]
              nextEventId := s.nextEventId + 1 })

/-- Responses of `get_ring_event`. -/
inductive GetRingResp where
  | r200 (body : RingOut)
  | r404 (message : String)
deriving Repr, DecidableEq

/-- `get_ring_event`. -/
def getRingEvent (s : State) (id : Nat) : GetRingResp :=
  match s.rings.find? (fun r => r.id == id) with
  | none => .r404 "No RingEvent matches the given query."
  | some r => .r200 (ringRecToOut r)

/-- `list_ring_events` (no pagination: the whole table). -/
def listRingEvents (s : State) : List RingOut :=
  s.rings.map ringRecToOut

/-- Responses of `create_box_event`. -/
inductive CreateBoxResp where
  | r201 (body : BoxOut)
  | r422 (message : String)
deriving Repr, DecidableEq

/-- `BoxEvent.full_clean()`.  Modelled from the spec: `api/models/event.py`
is missing from the sources.  Spec §3 requires of `BoxEvent`
"max_lat/min_lat ∈[-90,90] with max>min; max_lon/min_lon ∈[-180,180] with
max>min" and §3 adds "all coordinate fields are range-checked";
`create_box_event` is the one event handler that calls `full_clean`
before saving, raising Django's `ValidationError` on violation. -/
def boxFullClean (d : BoxIn) : Except String Unit :=
  if ¬ (-90 ≤ d.max_lat ∧ d.max_lat ≤ 90 ∧ -90 ≤ d.min_lat ∧ d.min_lat ≤ 90) then
    .error "Latitude must be between -90 and 90 degrees."
  else if ¬ (-180 ≤ d.max_lon ∧ d.max_lon ≤ 180 ∧ -180 ≤ d.min_lon ∧ d.min_lon ≤ 180) then
    .error "Longitude must be between -180 and 180 degrees."
  else if d.max_lat ≤ d.min_lat then .error "max_lat must be greater than min_lat."
  else if d.max_lon ≤ d.min_lon then .error "max_lon must be greater than min_lon."
  else .ok ()

/-- `create_box_event` (`api/controllers/event.py`): schema validation,
then `BoxEvent(**data.dict())`, `full_clean()` (whose `ValidationError`
the handler catches as 422) and `save()`. -/
def createBoxEvent (s : State) (d : BoxIn) : CreateBoxResp × State :=
  match validateBoxIn d with
  | .error e => (.r422 e, s)
  | .ok _ =>
    match boxFullClean d with
    | .error e => (.r422 e, s)
    | .ok _ =>
      let row : BoxRec :=
        { id := s.nextEventId, name := d.name, description := d.description
          is_valid := d.is_valid, max_lat := d.max_lat, min_lat := d.min_lat
          max_lon := d.max_lon, min_lon := d.min_lon }
      (.r201 { id := row.id, name := row.name, description := row.description
               is_valid := row.is_valid, max_lat := row.max_lat, min_lat := row.min_lat
               max_lon := row.max_lon, min_lon := row.min_lon },
       { s with events := s.events ++ [row.id], boxes := s.boxes ++ [row]
                nextEventId := s.nextEventId + 1 })

/-- Responses of `create_geo_event`. -/
inductive CreateGeoResp where
  | r201 (body : GeoOut)
  | r422 (message : String)
deriving Repr, DecidableEq

/-- `create_geo_event`. -/
def createGeoEvent (s : State) (d : GeoIn) : CreateGeoResp × State :=
  match validateGeoIn d with
  | .error e => (.r422 e, s)
  | .ok _ =>
    let row : GeoRec :=
      { id := s.nextEventId, name := d.name, description := d.description
        is_valid := d.is_valid, country := d.country, area := d.area
        subarea := d.subarea, subarea2 := d.subarea2 }
    (.r201 { id := row.id, name := row.name, description := row.description
             is_valid := row.is_valid, country := row.country, area := row.area
             subarea := row.subarea, subarea2 := row.subarea2 },
     { s with events := s.events ++ [row.id], geos := s.geos ++ [row]
              nextEventId := s.nextEventId + 1 })

/-- Responses of `create_event_group`. -/
inductive CreateGroupResp where
  | r201 (body : GroupOut)
  | r422 (message : String)
deriving Repr, DecidableEq

/-- `create_event_group` (`api/controllers/event.py`): filters the Event
table by the requested ids, answers 422 when the match count differs from
the request count, and only then creates the group and sets its members. -/
def createEventGroup (s : State) (d : GroupIn) : CreateGroupResp × State :=
  let matched := s.events.filter (fun e => d.event_ids.contains e)
  if matched.length ≠ d.event_ids.length then
    (.r422 "One or more event IDs are invalid", s)
  else
    let g : GroupRec :=
      { id := s.nextGroupId, name := d.name, events := matched
        created := s.clock, updated := s.clock }
    (.r201 { id := g.id, name := g.name, event_ids := g.events
             created := toString g.created, updated := toString g.updated },
     { s with groups := s.groups ++ [g], nextGroupId := s.nextGroupId + 1
              clock := s.clock + 1 })

/-- Responses of `create_report`. -/
inductive CreateReportResp where
  | r201 (body : ReportCreateOut)
  | r422 (message : String)
deriving Repr, DecidableEq

/-- `create_report` (`api/controllers/report.py`): after schema
validation (which checks `event_groups` existence but nothing about
`cron`), creates the Report from every field except `event_groups` —
`Report.objects.create` runs no field validators — and, when
`event_groups` is truthy, links the matching groups. -/
def createReport (s : State) (d : ReportIn) : CreateReportResp × State :=
  match validate_event_groups s d.event_groups with
  | .error e => (.r422 e, s)
  | .ok _ =>
    let linked := match d.event_groups with
      | some gids =>
        if gids.isEmpty then []     -- Python truthiness: `if data.event_groups:`
        else (s.groups.map (·.id)).filter (fun i => gids.contains i)
      | none => []
    let r : ReportRec :=
      { id := s.nextReportId, data := d.data, event_groups := linked
        created := s.clock, updated := s.clock }
    (.r201 { id := r.id, name := d.data.name },
     { s with reports := s.reports ++ [r], nextReportId := s.nextReportId + 1
              clock := s.clock + 1 })

/-- Responses of `get_report`. -/
inductive GetReportResp where
  | r200 (body : ReportOut)
  | r404 (message : String)
deriving Repr, DecidableEq

/-- `get_report`. -/
def getReport (s : State) (id : Nat) : GetReportResp :=
  match s.reports.find? (fun r => r.id == id) with
  | none => .r404 "No Report matches the given query."
  | some r => .r200 (reportToOut r)

/-- Responses of `list_reports`. -/
inductive ListReportsResp where
  | r200 (body : PaginatedReports)
  | r422 (message : String)
  | r500 (message : String)
deriving Repr, DecidableEq

/-- `list_reports`: paginates the Report table ordered by id (the state
keeps it in id order).  `per_page = 0` would make `Paginator.num_pages`
divide by zero (an uncaught `ZeroDivisionError` → 500); an out-of-range
page raises `InvalidPage`, caught as 422.  The handler performs no
writes. -/
def listReports (s : State) (page perPage : Nat) : ListReportsResp :=
  if perPage = 0 then .r500 "ZeroDivisionError: division by zero"
  else
    let count := s.reports.length
    let npages := numPages count perPage
    if page < 1 ∨ npages < page then .r422 s!"Invalid page number: {page}"
    else
      let slice := (s.reports.drop ((page - 1) * perPage)).take perPage
      .r200 { items := slice.map reportToOut, total := count, page := page
              per_page := perPage, total_pages := npages }

/-- Responses of `create_report_modifier`. -/
inductive CreateModifierResp where
  | r201
  | r422 (message : String)
  | r500 (message : String)
deriving Repr, DecidableEq

/-- `create_report_modifier` (`api/controllers/report.py`): the modifier
row is created, but the handler then evaluates `if data.report_ids:` —
and `ReportModifierSchemaIn` declares no `report_ids` field (see
`modifierSchemaInFieldNames`), so pydantic raises `AttributeError`.  The
handler catches only Django's `ValidationError`, so the global handler
answers 500 and `transaction.atomic()` rolls the row back: no modifier is
ever created through this endpoint. -/
def createReportModifier (s : State) (_d : ModifierIn) : CreateModifierResp × State :=
  (.r500 "AttributeError: 'ReportModifierSchemaIn' object has no attribute 'report_ids'", s)

/-- Responses of `link_modifier_to_reports`. -/
inductive LinkModifierResp where
  | r200
  | r404 (message : String)
  | r422 (message : String)
  | r500 (message : String)
deriving Repr, DecidableEq

/-- `link_modifier_to_reports` (`api/controllers/report.py`): 404 for a
missing modifier, 422 when some requested report id has no row; otherwise
the links are added but `to_report_modifier_schema_out` then constructs
`ReportModifierSchemaOut` without its required `report_id` field (it
passes `report_ids` instead), so pydantic raises `ValidationError` — not
Django's, hence uncaught → 500 — and the atomic block rolls the links
back. -/
def linkModifierToReports (s : State) (modifier_id : Nat) (report_ids : List Nat) :
    LinkModifierResp × State :=
  match s.modifiers.find? (fun m => m.id == modifier_id) with
  | none => (.r404 "No ReportModifier matches the given query.", s)
  | some _ =>
    let matched := s.reports.filter (fun r => report_ids.contains r.id)
    if matched.length ≠ report_ids.length then
      (.r422 ("Invalid report IDs: " ++
        toString (report_ids.filter (fun i => ¬ (s.reports.map (·.id)).contains i))), s)
    else
      (.r500 "ValidationError: 1 validation error for ReportModifierSchemaOut: report_id field required", s)

/-- Responses of `link_report_to_event_group`. -/
inductive LinkGroupResp where
  | r200 (body : ReportGroupLinkOut)
  | r404 (message : String)
  | r422 (message : String)
deriving Repr, DecidableEq

/-- `link_report_to_event_group` (`api/controllers/report.py`): 404 for a
missing report or group, 422 (with no change) when the group is already
in the report's `event_groups`, else the link is added and 200 returned. -/
def linkReportToEventGroup (s : State) (report_id event_group_id : Nat) :
    LinkGroupResp × State :=
  match s.reports.find? (fun r => r.id == report_id) with
  | none => (.r404 "No Report matches the given query.", s)
  | some r =>
    match s.groups.find? (fun g => g.id == event_group_id) with
    | none => (.r404 "No EventGroup matches the given query.", s)
    | some _ =>
      if r.event_groups.contains event_group_id then
        (.r422 "Event group is already linked to this report", s)
      else
        (.r200 { report_id := report_id, event_group_id := event_group_id },
         { s with reports := s.reports.map (fun r2 =>
             if r2.id == report_id then { r2 with event_groups := r2.event_groups ++ [event_group_id] }
             else r2) })

/-- Responses of `create_job`. -/
inductive CreateJobResp where
  | r201 (body : JobOut)
  | r404 (message : String)
  | r422 (message : String)
  | r500 (message : String)
deriving Repr, DecidableEq

/-- `Job.objects.create(report=…, report_modifier=…, status=…)`:
Django's `Model.__init__` accepts only keywords naming model fields.
The guard transcribes that check against the field list of
`api/models/job.py`; since `report_modifier` and `status` are not fields
of the `Job` model, it fails, `TypeError` escapes (the handler catches
only `ValidationError`), the global handler answers 500 and the atomic
block rolls back. -/
def jobObjectsCreate (s : State) (report_id : Nat) (modifier_id : Option Nat)
    (status : String) : CreateJobResp × State :=
  if jobCreateKwargNames.all (fun k => jobModelFieldNames.contains k) then
    (.r201 { id := s.nextJobId, report_id := report_id, report_modifier_id := modifier_id
             status := status, created := toString s.clock, updated := toString s.clock },
     { s with jobs := s.jobs ++ [{ id := s.nextJobId, report := report_id
                                   created := s.clock, updated := s.clock }]
              nextJobId := s.nextJobId + 1, clock := s.clock + 1 })
  else
    (.r500 "TypeError: Job() got unexpected keyword arguments: 'report_modifier', 'status'", s)

/-- `create_job` (`api/controllers/job.py`): pydantic validation of
`JobSchemaIn` (existence of the referenced ids), then inside
`transaction.atomic()` the report lookup, the optional modifier lookup
with the linkage check (`if not report_modifier.reports.filter(id=…).exists()`
→ 422 before anything is written), and finally `Job.objects.create`.
The `if data.report_modifier_id:` guard uses Python truthiness, so a
modifier id of `0` is treated as absent. -/
def createJob (s : State) (d : JobInRaw) : CreateJobResp × State :=
  match validateJobIn s d with
  | .error e => (.r422 e, s)
  | .ok status =>
    if ¬ s.reports.any (fun r => r.id == d.report_id) then
      (.r404 "No Report matches the given query.", s)
    else
      match d.report_modifier_id with
      | some mid =>
        if mid ≠ 0 then
          match s.modifiers.find? (fun m => m.id == mid) with
          | none => (.r404 "No ReportModifier matches the given query.", s)
          | some m =>
            if ¬ m.reports.contains d.report_id then
              (.r422 "Report modifier is not linked to the specified report", s)
            else jobObjectsCreate s d.report_id (some mid) status
        else jobObjectsCreate s d.report_id none status
      | none => jobObjectsCreate s d.report_id none status

/-- Responses of `update_job_status`. -/
inductive UpdateJobResp where
  | r200 (body : JobOut)
  | r404 (message : String)
  | r422 (message : String)
  | r500 (message : String)
deriving Repr, DecidableEq

/-- `update_job_status` (`api/controllers/job.py`): after the `Literal`
check on the body and the job lookup, `job.status = data.status` only
sets a transient Python attribute (the model has no such field) and
`job.save()` would persist `updated`; but building `JobSchemaOut` then
reads `job.report_modifier`, which the model does not declare → the
guard on the model's field list fails, `AttributeError` → 500, and the
atomic block rolls the save back. -/
def updateJobStatus (s : State) (id : Nat) (status : String) : UpdateJobResp × State :=
  if ¬ statusLiterals.contains status then
    (.r422 "status: Input should be PENDING, RUNNING, COMPLETED or FAILED", s)
  else
    match s.jobs.find? (fun j => j.id == id) with
    | none => (.r404 "No Job matches the given query.", s)
    | some j =>
      if jobModelFieldNames.contains "report_modifier" then
        (.r200 { id := j.id, report_id := j.report, report_modifier_id := none
                 status := status, created := toString j.created, updated := toString s.clock },
         { s with jobs := s.jobs.map (fun j2 => if j2.id == id then { j2 with updated := s.clock } else j2)
                  clock := s.clock + 1 })
      else
        (.r500 "AttributeError: 'Job' object has no attribute 'report_modifier'", s)

/-- Responses of `list_jobs`. -/
inductive ListJobsResp where
  | r200 (body : PaginatedJobs)
  | r422 (message : String)
  | r500 (message : String)
deriving Repr, DecidableEq

/-- `list_jobs` (`api/controllers/job.py`): pagination over the Job table
ordered by id; an out-of-range page raises `InvalidPage`, caught as 422.
Serializing any job row on the requested page raises `AttributeError`
(see `jobToOut`) → 500.  The handler performs no writes. -/
def listJobs (s : State) (page perPage : Nat) : ListJobsResp :=
  if perPage = 0 then .r500 "ZeroDivisionError: division by zero"
  else
    let count := s.jobs.length
    let npages := numPages count perPage
    if page < 1 ∨ npages < page then .r422 s!"Invalid page number: {page}"
    else
      let slice := (s.jobs.drop ((page - 1) * perPage)).take perPage
      match slice.mapM jobToOut with
      | .error e => .r500 e
      | .ok items =>
        .r200 { items := items, total := count, page := page
                per_page := perPage, total_pages := npages }

/-! ## Reachable states

Every state-mutating routed endpoint, folded from the empty database. -/

/-- One invocation of a mutating endpoint, with its (already parsed)
request data. -/
inductive Op where
  | ringCreate (d : RingIn)
  | boxCreate (d : BoxIn)
  | geoCreate (d : GeoIn)
  | groupCreate (d : GroupIn)
  | reportCreate (d : ReportIn)
  | modifierCreate (d : ModifierIn)
  | modifierLink (modifier_id : Nat) (report_ids : List Nat)
  | reportGroupLink (report_id event_group_id : Nat)
  | jobCreate (d : JobInRaw)
  | jobStatusUpdate (id : Nat) (status : String)

/-- The state after serving one request. -/
def applyOp (s : State) : Op → State
  | .ringCreate d => (createRingEvent s d).2
  | .boxCreate d => (createBoxEvent s d).2
  | .geoCreate d => (createGeoEvent s d).2
  | .groupCreate d => (createEventGroup s d).2
  | .reportCreate d => (createReport s d).2
  | .modifierCreate d => (createReportModifier s d).2
  | .modifierLink mid rids => (linkModifierToReports s mid rids).2
  | .reportGroupLink rid gid => (linkReportToEventGroup s rid gid).2
  | .jobCreate d => (createJob s d).2
  | .jobStatusUpdate id st => (updateJobStatus s id st).2

/-- A database state the API can reach from the empty deployment. -/
def Reachable (s : State) : Prop :=
  ∃ ops : List Op, s = ops.foldl applyOp initState

/-- The spec's pagination formula, stated from the spec's words
(spec §4: "total_pages = ceil(total/per_page)") for comparison with the
code's `numPages`. -/
def specTotalPages (total perPage : Nat) : Nat := (total + perPage - 1) / perPage

/-! ## Helper lemmas -/

/-- `Job.objects.create` as called by `create_job` always raises: the
kwargs it passes are not all fields of the `Job` model. -/
lemma jobObjectsCreate_raises (s : State) (rid : Nat) (mid : Option Nat) (st : String) :
    jobObjectsCreate s rid mid st =
      (.r500 "TypeError: Job() got unexpected keyword arguments: 'report_modifier', 'status'", s) := by
  have h : (jobCreateKwargNames.all (fun k => jobModelFieldNames.contains k)) = false := by decide
  simp only [jobObjectsCreate, h]
  rfl

/-- Filtering a duplicate-free table by membership in a request list that
names at least one absent id matches strictly fewer rows than the request
has entries. -/
lemma length_filter_contains_lt {l ids : List Nat} (hnd : l.Nodup) {i0 : Nat}
    (hi : i0 ∈ ids) (hni : i0 ∉ l) :
    (l.filter (fun x => ids.contains x)).length < ids.length := by
  classical
  have hfnd : (l.filter (fun x => ids.contains x)).Nodup := hnd.filter _
  have hsub : (l.filter (fun x => ids.contains x)).toFinset ⊆ ids.toFinset.erase i0 := by
    intro x hx
    rw [List.mem_toFinset, List.mem_filter] at hx
    rcases hx with ⟨hxl, hxids⟩
    simp only [List.contains, List.elem_iff] at hxids
    refine Finset.mem_erase.mpr ⟨?_, List.mem_toFinset.mpr hxids⟩
    rintro rfl; exact hni hxl
  have hcard := Finset.card_le_card hsub
  rw [List.toFinset_card_of_nodup hfnd] at hcard
  have herase : (ids.toFinset.erase i0).card = ids.toFinset.card - 1 :=
    Finset.card_erase_of_mem (List.mem_toFinset.mpr hi)
  have hle : ids.toFinset.card ≤ ids.length := ids.toFinset_card_le
  have hpos : 0 < ids.toFinset.card :=
    Finset.card_pos.mpr ⟨i0, List.mem_toFinset.mpr hi⟩
  omega

/-- Filtering a duplicate-free table by membership in `[a, b]`, with both
present and distinct, matches exactly two rows. -/
lemma length_filter_pair {l : List Nat} (hnd : l.Nodup) {a b : Nat}
    (ha : a ∈ l) (hb : b ∈ l) (hab : a ≠ b) :
    (l.filter (fun x => ([a, b] : List Nat).contains x)).length = 2 := by
  classical
  have hfnd : (l.filter (fun x => ([a, b] : List Nat).contains x)).Nodup := hnd.filter _
  have hset : (l.filter (fun x => ([a, b] : List Nat).contains x)).toFinset = {a, b} := by
    ext x
    rw [List.mem_toFinset, List.mem_filter]
    simp only [List.contains, List.elem_iff]
    constructor
    · rintro ⟨-, hx⟩
      simpa using hx
    · intro hx
      rcases Finset.mem_insert.mp hx with rfl | hx
      · exact ⟨ha, by simp⟩
      · rcases Finset.mem_singleton.mp hx with rfl
        exact ⟨hb, by simp⟩
  have := List.toFinset_card_of_nodup hfnd
  rw [hset] at this
  rw [← this, Finset.card_insert_of_not_mem (by simpa using hab), Finset.card_singleton]

/-- No routed endpoint ever changes the Job table: the only handler that
tries, `create_job`, always fails in `Job.objects.create` (see
`jobObjectsCreate_raises`), and `update_job_status` 404s or 500s with a
rollback. -/
lemma applyOp_jobs (s : State) (op : Op) : (applyOp s op).jobs = s.jobs := by
  cases op with
  | ringCreate d =>
    simp only [applyOp, createRingEvent]
    split <;> rfl
  | boxCreate d =>
    simp only [applyOp, createBoxEvent]
    split
    · rfl
    · split <;> rfl
  | geoCreate d =>
    simp only [applyOp, createGeoEvent]
    split <;> rfl
  | groupCreate d =>
    simp only [applyOp, createEventGroup]
    split <;> rfl
  | reportCreate d =>
    simp only [applyOp, createReport]
    split <;> rfl
  | modifierCreate d =>
    rfl
  | modifierLink mid rids =>
    simp only [applyOp, linkModifierToReports]
    split
    · rfl
    · split <;> rfl
  | reportGroupLink rid gid =>
    simp only [applyOp, linkReportToEventGroup]
    split
    · rfl
    · split
      · rfl
      · split <;> rfl
  | jobCreate d =>
    simp only [applyOp, createJob]
    split
    · rfl
    · split
      · rfl
      · split
        · split
          · split
            · rfl
            · split
              · rfl
              · rw [jobObjectsCreate_raises]
          · rw [jobObjectsCreate_raises]
        · rw [jobObjectsCreate_raises]
  | jobStatusUpdate id st =>
    simp only [applyOp, updateJobStatus]
    split
    · rfl
    · split
      · rfl
      · rw [if_neg (by decide)]

/-- Every reachable state has an empty Job table. -/
lemma reachable_jobs_eq_nil {s : State} (h : Reachable s) : s.jobs = [] := by
  obtain ⟨ops, rfl⟩ := h
  suffices hgen : ∀ (l : List Op) (t : State), (l.foldl applyOp t).jobs = t.jobs by
    rw [hgen ops initState]; rfl
  intro l
  induction l with
  | nil => intro t; rfl
  | cons op rest ih => intro t; rw [List.foldl_cons, ih, applyOp_jobs]

/-- `num_pages` agrees with the spec's `ceil(total/per_page)` exactly when
the latter is at least 1; on an empty collection it is 1, not 0. -/
lemma numPages_eq_max (c pp : Nat) (hpp : 1 ≤ pp) :
    numPages c pp = max 1 (specTotalPages c pp) := by
  unfold numPages specTotalPages
  rcases Nat.eq_zero_or_pos c with rfl | hc
  · have h1 : (pp - 1) / pp = 0 := Nat.div_eq_of_lt (by omega)
    have h2 : (1 + pp - 1) = pp := by omega
    simp [h1, h2, Nat.div_self (by omega : 0 < pp)]
  · have hmax : max 1 c = c := Nat.max_eq_right hc
    have hge : 1 ≤ (c + pp - 1) / pp := by
      rw [Nat.le_div_iff_mul_le (by omega : 0 < pp)]
      omega
    rw [hmax, Nat.max_eq_right hge]

/-! ## Concrete fixtures for witnesses -/

/-- A concrete report payload (the schema defaults of `ReportSchemaIn`). -/
def sampleReportData : ReportData :=
  { name := "r", peril := "WS", dr := 1, cron := none, cob := none
    loss_perspective := "Gross", is_apply_calibration := true, is_apply_inflation := true
    is_tag_outwards_ptns := false, is_location_breakout := false
    is_ignore_missing_lat_lon := true, location_breakout_max_events := 500000
    location_breakout_max_locations := 1000000, priority := "AboveNormal", ncores := 24
    gross_node_id := none, net_node_id := none, rollup_context_id := none
    dynamic_ring_loss_threshold := 5000000, blast_radius := some 50
    no_overlap_radius := none, is_valid := true }

/-- A stored report with id 1 and no linked groups. -/
def sampleReport : ReportRec :=
  { id := 1, data := sampleReportData, event_groups := [], created := 0, updated := 0 }

/-- A database holding exactly one report (id 1). -/
def oneReportState : State := { initState with reports := [sampleReport], nextReportId := 2 }

/-- A report-creation request whose cron string has only four fields. -/
def badCronReportIn : ReportIn :=
  { data := { sampleReportData with cron := some "* * * *" }, event_groups := none }

/-! ## The claims -/

/-- **C1.** The claim reads: a create-job request whose `report_id` names
an existing Report and whose `report_modifier_id` is omitted is answered
201 with the new job's id, report_id, status (defaulting to PENDING) and
timestamps, and the Job row is persisted.  The code does the opposite:
`Job.objects.create` is called with the kwargs `report_modifier` and
`status`, which the `Job` model of `api/models/job.py` does not declare,
so Django raises `TypeError`, the handler's `except ValidationError`
does not catch it, the global handler answers 500, and the atomic block
rolls back — no Job is persisted.  The controller, `JobSchemaIn/Out` and
the spec all presuppose the two missing model fields: the model is the
slip (code bug). -/
theorem claim_C1 (s : State) (d : JobInRaw)
    (hr : s.reports.any (fun r => r.id == d.report_id) = true)
    (hm : d.report_modifier_id = none) (hs : d.status = none) :
    createJob s d =
      (.r500 "TypeError: Job() got unexpected keyword arguments: 'report_modifier', 'status'", s) := by
  unfold createJob validateJobIn
  rw [hm, hs, hr]
  simp [jobObjectsCreate_raises]

/-- **C1**, evaluated at the failing input: one stored report, request
`{report_id: 1}`. -/
theorem claim_C1_witness :
    createJob oneReportState { report_id := 1, report_modifier_id := none, status := none } =
      (.r500 "TypeError: Job() got unexpected keyword arguments: 'report_modifier', 'status'",
       oneReportState) :=
  claim_C1 oneReportState _ (by rfl) rfl rfl

/-- **C5**, counterexample to the claim as stated: the request carries the
cron string `"* * * *"`, which fails the five-field grammar
(`cronMatch` is false), yet `create_report` answers 201 and persists the
Report with that cron — not 422 — because `ReportSchemaIn` declares no
cron validator and `Report.objects.create` runs none. -/
theorem claim_C5_counterexample :
    cronMatch "* * * *" = false ∧
    createReport initState badCronReportIn =
      (.r201 { id := 1, name := "r" },
       { initState with
           reports := [{ id := 1, data := badCronReportIn.data, event_groups := []
                         created := 0, updated := 0 }]
           nextReportId := 2, clock := 1 }) :=
  ⟨by decide, rfl⟩

/-- **C5**, amended: the create-report endpoint performs no cron
validation at all — any request with valid (here: absent) event_groups is
answered 201 and the Report is persisted with the given cron string
verbatim, whether or not it matches the five-field grammar.  The
five-field check (`validate_cron`) exists in the sources only inside the
DRF serializer module, which no routed endpoint uses. -/
theorem claim_C5 (s : State) (d : ReportIn) (hg : d.event_groups = none) :
    createReport s d =
      (.r201 { id := s.nextReportId, name := d.data.name },
       { s with
           reports := s.reports ++ [{ id := s.nextReportId, data := d.data
                                      event_groups := [], created := s.clock, updated := s.clock }]
           nextReportId := s.nextReportId + 1, clock := s.clock + 1 }) := by
  unfold createReport validate_event_groups
  rw [hg]

/-- **C5**, witness: the amended statement instantiated on an empty
database and a five-field-violating cron string. -/
theorem claim_C5_witness :
    createReport initState
        { data := { sampleReportData with cron := some "not a cron" }, event_groups := none } =
      (.r201 { id := 1, name := "r" },
       { initState with
           reports := [{ id := 1
                         data := { sampleReportData with cron := some "not a cron" }
                         event_groups := [], created := 0, updated := 0 }]
           nextReportId := 2, clock := 1 }) :=
  claim_C5 initState _ rfl

/-- **C6.** A list-jobs or list-reports request whose page number exceeds
the collection's `num_pages` (the `total_pages` the endpoint reports) is
answered 422 with the invalid-page message — `Paginator.page` raises
`InvalidPage`, caught and rendered, with no clamping; the handlers
perform no writes (they are read-only, hence take no state to a new
state in this embedding). -/
theorem claim_C6 :
    (∀ (s : State) (page pp : Nat), 1 ≤ pp → numPages s.jobs.length pp < page →
       listJobs s page pp = .r422 s!"Invalid page number: {page}") ∧
    (∀ (s : State) (page pp : Nat), 1 ≤ pp → numPages s.reports.length pp < page →
       listReports s page pp = .r422 s!"Invalid page number: {page}") := by
  constructor
  · intro s page pp hpp hpage
    simp only [listJobs]
    rw [if_neg (by omega), if_pos (Or.inr hpage)]
  · intro s page pp hpp hpage
    simp only [listReports]
    rw [if_neg (by omega), if_pos (Or.inr hpage)]

/-- **C6**, witness: page 2 of an empty database (whose single empty page
is page 1) is rejected on both endpoints. -/
theorem claim_C6_witness :
    listJobs initState 2 10 = .r422 "Invalid page number: 2" ∧
    listReports initState 2 10 = .r422 "Invalid page number: 2" :=
  ⟨claim_C6.1 initState 2 10 (by decide) (by decide),
   claim_C6.2 initState 2 10 (by decide) (by decide)⟩

/-- **C8**, counterexample to the claim as stated: on an empty database,
list-reports answers 200 with `total = 0` but `total_pages = 1`, whereas
the claim's formula `ceil(total/per_page)` gives 0 — Django's
`Paginator.num_pages` never reports fewer than one page. -/
theorem claim_C8_counterexample :
    listReports initState 1 10 =
      .r200 { items := [], total := 0, page := 1, per_page := 10, total_pages := 1 } ∧
    specTotalPages 0 10 = 0 :=
  ⟨rfl, rfl⟩

/-- **C8**, amended: every 200 list-jobs / list-reports response reports
`total` equal to the stored row count and
`total_pages = max 1 ⌈total/per_page⌉` — that is, `ceil(total/per_page)`
whenever `total ≥ 1`, but 1 (not 0) when the collection is empty. -/
theorem claim_C8 :
    (∀ (s : State) (page pp : Nat) (body : PaginatedReports),
       listReports s page pp = .r200 body →
       body.total = s.reports.length ∧ body.total_pages = max 1 (specTotalPages body.total pp)) ∧
    (∀ (s : State) (page pp : Nat) (body : PaginatedJobs),
       listJobs s page pp = .r200 body →
       body.total = s.jobs.length ∧ body.total_pages = max 1 (specTotalPages body.total pp)) := by
  constructor
  · intro s page pp body h
    simp only [listReports] at h
    split at h
    · exact absurd h (by simp)
    next hpp =>
      split at h
      · exact absurd h (by simp)
      · cases h
        exact ⟨rfl, numPages_eq_max _ _ (by omega)⟩
  · intro s page pp body h
    simp only [listJobs] at h
    split at h
    · exact absurd h (by simp)
    next hpp =>
      split at h
      · exact absurd h (by simp)
      · split at h
        · exact absurd h (by simp)
        · cases h
          exact ⟨rfl, numPages_eq_max _ _ (by omega)⟩

/-- **C8**, witness: the amended statement instantiated on the empty
database's first page. -/
theorem claim_C8_witness :
    ((0 : Nat) = initState.reports.length ∧ (1 : Nat) = max 1 (specTotalPages 0 10)) ∧
    ((0 : Nat) = initState.jobs.length ∧ (1 : Nat) = max 1 (specTotalPages 0 10)) :=
  ⟨claim_C8.1 initState 1 10
      { items := [], total := 0, page := 1, per_page := 10, total_pages := 1 } rfl,
   claim_C8.2 initState 1 10
      { items := [], total := 0, page := 1, per_page := 10, total_pages := 1 } rfl⟩

/-- **C2**, counterexample to the claim as stated: on a database where
Report 1 exists and no ReportModifier at all does (so id 0 in particular
is nonexistent — Django auto-ids start at 1), the create-job request
`{report_id: 1, report_modifier_id: 0}` is answered **500**, not the
claimed 422 or 404: `validate_report_modifier_id`'s `if value:` and the
controller's `if data.report_modifier_id:` both treat the falsy id 0 as
absent, skipping the existence check, and the request falls through to
`Job.objects.create`, whose `TypeError` (see C1) the global handler
renders as 500.  Nothing is persisted. -/
theorem claim_C2_counterexample :
    (∀ m ∈ oneReportState.modifiers, m.id ≠ 0) ∧
    createJob oneReportState { report_id := 1, report_modifier_id := some 0, status := none } =
      (.r500 "TypeError: Job() got unexpected keyword arguments: 'report_modifier', 'status'",
       oneReportState) :=
  ⟨by simp [oneReportState, initState], rfl⟩

/-- **C2**, amended.  A creation request for an EventGroup, Report or Job
naming at least one nonexistent id persists nothing — the state is
returned exactly unchanged — and is answered with an error: 422 in every
case (the group handler checks counts itself; for Report/Job the pydantic
validators of `ReportSchemaIn`/`JobSchemaIn` query the tables and reject
before the controller runs), **except** a create-job request whose
`report_modifier_id` is the falsy id 0 with an existing `report_id`:
Python truthiness skips the modifier existence check there and the
request instead fails 500 in `Job.objects.create` (the C1 bug), still
writing nothing.  The Nodup hypotheses say the id column is
duplicate-free, as primary keys are. -/
theorem claim_C2 :
    (∀ (s : State) (d : GroupIn) (i0 : Nat), s.events.Nodup → i0 ∈ d.event_ids →
       i0 ∉ s.events →
       createEventGroup s d = (.r422 "One or more event IDs are invalid", s)) ∧
    (∀ (s : State) (d : ReportIn) (gids : List Nat) (i0 : Nat),
       (s.groups.map (·.id)).Nodup → d.event_groups = some gids → i0 ∈ gids →
       i0 ∉ s.groups.map (·.id) →
       ∃ m, createReport s d = (.r422 m, s)) ∧
    (∀ (s : State) (d : JobInRaw), (∀ r ∈ s.reports, r.id ≠ d.report_id) →
       ∃ m, createJob s d = (.r422 m, s)) ∧
    (∀ (s : State) (d : JobInRaw) (mid : Nat), d.report_modifier_id = some mid →
       mid ≠ 0 → (∀ m' ∈ s.modifiers, m'.id ≠ mid) →
       ∃ m, createJob s d = (.r422 m, s)) ∧
    (∀ (s : State) (d : JobInRaw), d.report_modifier_id = some 0 →
       (d.status = none ∨ ∃ st, d.status = some st ∧ statusLiterals.contains st = true) →
       s.reports.any (fun r => r.id == d.report_id) = true →
       createJob s d =
         (.r500 "TypeError: Job() got unexpected keyword arguments: 'report_modifier', 'status'",
          s)) := by
  refine ⟨?_, ?_, ?_, ?_, ?_⟩
  · intro s d i0 hnd hi hni
    have hlt := length_filter_contains_lt hnd hi hni
    simp only [createEventGroup]
    rw [if_pos (by omega)]
  · intro s d gids i0 hnd hg hi hni
    have hlt := length_filter_contains_lt hnd hi hni
    have hval : ∃ m, validate_event_groups s d.event_groups = .error m := by
      rw [hg]
      simp only [validate_event_groups]
      have hne : gids.isEmpty = false := by
        cases gids
        · cases hi
        · rfl
      rw [if_neg (by simp [hne]), if_pos (by omega)]
      exact ⟨_, rfl⟩
    obtain ⟨m, hm⟩ := hval
    exact ⟨m, by simp only [createReport, hm]⟩
  · intro s d hr
    have hany : s.reports.any (fun r => r.id == d.report_id) = false := by
      rw [List.any_eq_false]
      intro r hrm
      simpa using hr r hrm
    exact ⟨"Invalid report ID: " ++ toString d.report_id,
      by simp [createJob, validateJobIn, hany]⟩
  · intro s d mid hm h0 hmods
    have hmodany : s.modifiers.any (fun m' => m'.id == mid) = false := by
      rw [List.any_eq_false]
      intro m' hm'
      simpa using hmods m' hm'
    by_cases hany : s.reports.any (fun r => r.id == d.report_id) = true
    · exact ⟨"Invalid report modifier ID: " ++ toString mid,
        by simp [createJob, validateJobIn, hany, hm, hmodany, h0]⟩
    · have hany' : s.reports.any (fun r => r.id == d.report_id) = false := by
        revert hany
        cases s.reports.any (fun r => r.id == d.report_id) <;> simp
      exact ⟨"Invalid report ID: " ++ toString d.report_id,
        by simp [createJob, validateJobIn, hany']⟩
  · intro s d hm hst hany
    rcases hst with hst | ⟨st, hst, hstok⟩
    · simp [createJob, validateJobIn, hany, hm, hst, jobObjectsCreate_raises]
    · have hmem : st ∈ statusLiterals := by simpa using hstok
      simp [createJob, validateJobIn, hany, hm, hst, hmem, jobObjectsCreate_raises]

/-- A group-creation request naming event 7, which does not exist in
`oneReportState`. -/
def missingEventGroupIn : GroupIn := { name := "g", event_ids := [7] }

/-- **C2**, witness: each of the five paths of the amended claim
exercised on concrete states. -/
theorem claim_C2_witness :
    createEventGroup initState missingEventGroupIn =
      (.r422 "One or more event IDs are invalid", initState) ∧
    (∃ m, createReport initState { data := sampleReportData, event_groups := some [7] } =
      (.r422 m, initState)) ∧
    (∃ m, createJob initState { report_id := 7, report_modifier_id := none, status := none } =
      (.r422 m, initState)) ∧
    (∃ m, createJob oneReportState { report_id := 1, report_modifier_id := some 7, status := none } =
      (.r422 m, oneReportState)) ∧
    createJob oneReportState { report_id := 1, report_modifier_id := some 0, status := none } =
      (.r500 "TypeError: Job() got unexpected keyword arguments: 'report_modifier', 'status'",
       oneReportState) :=
  ⟨claim_C2.1 initState missingEventGroupIn 7 (by decide) (by decide) (by decide),
   claim_C2.2.1 initState _ [7] 7 (by decide) rfl (by decide) (by decide),
   claim_C2.2.2.1 initState _ (by simp [initState]),
   claim_C2.2.2.2.1 oneReportState _ 7 rfl (by decide) (by simp [oneReportState, initState]),
   claim_C2.2.2.2.2 oneReportState _ rfl (Or.inl rfl) (by rfl)⟩

/-- A box-event request with coordinates in range but reversed latitude
bounds. -/
def boxRevIn : BoxIn :=
  { name := "b", description := "d", is_valid := true
    max_lat := 10, min_lat := 20, max_lon := 30, min_lon := 5 }

/-- **C3.** A box-event creation request whose four coordinates are in
range but whose bounds are equal or reversed on some axis is answered 422
and nothing is stored.  The schema's own cross-field validators are dead
(see `validateBoxIn`: pydantic validates `max_lat` before `min_lat`, so
the comparison is skipped), but the handler's `full_clean()` call — whose
max>min checks are modelled from the spec, `api/models/event.py` being
absent from the sources — raises `ValidationError`, caught as 422 before
`save()`. -/
theorem claim_C3 (s : State) (d : BoxIn)
    (hlat : -90 ≤ d.min_lat ∧ d.min_lat ≤ 90 ∧ -90 ≤ d.max_lat ∧ d.max_lat ≤ 90)
    (hlon : -180 ≤ d.min_lon ∧ d.min_lon ≤ 180 ∧ -180 ≤ d.max_lon ∧ d.max_lon ≤ 180)
    (hbad : d.max_lat ≤ d.min_lat ∨ d.max_lon ≤ d.min_lon) :
    ∃ m, createBoxEvent s d = (.r422 m, s) := by
  obtain ⟨h1, h2, h3, h4⟩ := hlat
  obtain ⟨h5, h6, h7, h8⟩ := hlon
  have hclean : ∃ m, boxFullClean d = .error m := by
    simp only [boxFullClean]
    rw [if_neg (not_not.mpr ⟨h3, h4, h1, h2⟩), if_neg (not_not.mpr ⟨h7, h8, h5, h6⟩)]
    rcases hbad with hb | hb
    · rw [if_pos hb]
      exact ⟨_, rfl⟩
    · by_cases hlat2 : d.max_lat ≤ d.min_lat
      · rw [if_pos hlat2]
        exact ⟨_, rfl⟩
      · rw [if_neg hlat2, if_pos hb]
        exact ⟨_, rfl⟩
  obtain ⟨m, hm⟩ := hclean
  cases hv : validateBoxIn d with
  | error e => exact ⟨e, by simp only [createBoxEvent, hv]⟩
  | ok u =>
    cases u
    exact ⟨m, by simp only [createBoxEvent, hv, hm]⟩

/-- **C3**, witness: in-range coordinates with `max_lat < min_lat` are
rejected with no state change. -/
theorem claim_C3_witness : ∃ m, createBoxEvent initState boxRevIn = (.r422 m, initState) :=
  claim_C3 initState boxRevIn (by norm_num [boxRevIn]) (by norm_num [boxRevIn])
    (Or.inl (by norm_num [boxRevIn]))

/-- **C4.** First part: in every API-reachable state, every stored Job
satisfies every property — vacuously, because the Job table is empty in
every reachable state (`create_job` always fails in `Job.objects.create`,
see C1); in particular every Job whose report_modifier is set has it in
its Report's modifier set.  Second part: a create-job request naming an
existing report and an existing modifier (a truthy id) that is not linked
to that report is answered
422 "Report modifier is not linked to the specified report" with the
state unchanged — the check runs before `Job.objects.create`. -/
theorem claim_C4 :
    (∀ s : State, Reachable s → ∀ (P : JobRec → Prop), ∀ j ∈ s.jobs, P j) ∧
    (∀ (s : State) (d : JobInRaw) (mid : Nat) (m : ModifierRec),
       d.report_modifier_id = some mid → mid ≠ 0 →
       s.modifiers.find? (fun m' => m'.id == mid) = some m →
       s.reports.any (fun r => r.id == d.report_id) = true →
       d.status = none →
       d.report_id ∉ m.reports →
       createJob s d = (.r422 "Report modifier is not linked to the specified report", s)) := by
  constructor
  · intro s hs P j hj
    rw [reachable_jobs_eq_nil hs] at hj
    cases hj
  · intro s d mid m hm h0 hfind hany hst hnl
    have hmodany : s.modifiers.any (fun m' => m'.id == mid) = true := by
      rw [List.any_eq_true]
      exact ⟨m, List.mem_of_find?_eq_some hfind,
        @List.find?_some _ (fun m' => m'.id == mid) m s.modifiers hfind⟩
    have hcont : m.reports.contains d.report_id = false := by
      simpa using hnl
    simp [createJob, validateJobIn, hm, hst, hany, hfind, hmodany, hcont, h0, hnl]

/-- A stored modifier (id 1) linked to report 2 only. -/
def sampleModifier : ModifierRec :=
  { id := 1, as_at_date := none, fx_date := none, reports := [2] }

/-- A database with report 1 and modifier 1, the modifier not linked to
the report. -/
def unlinkedModifierState : State :=
  { initState with reports := [sampleReport], modifiers := [sampleModifier]
                   nextReportId := 2, nextModifierId := 2 }

/-- **C4**, witness: the unlinked-modifier rejection at a concrete
state. -/
theorem claim_C4_witness :
    createJob unlinkedModifierState { report_id := 1, report_modifier_id := some 1, status := none } =
      (.r422 "Report modifier is not linked to the specified report", unlinkedModifierState) :=
  claim_C4.2 unlinkedModifierState _ 1 sampleModifier rfl (by decide) rfl rfl rfl (by decide)

/-- **C7.** Creating a Report naming two existing, distinct EventGroups
`[a, b]` and then getting the Report by the returned id yields an
`event_groups` list whose members are exactly `{a, b}`.  The freshness
hypothesis says no stored report already uses the id the auto-field will
allocate, as holds for Django's per-table sequences. -/
theorem claim_C7 (s : State) (a b : Nat) (d : ReportIn)
    (hnd : (s.groups.map (·.id)).Nodup)
    (ha : a ∈ s.groups.map (·.id)) (hb : b ∈ s.groups.map (·.id)) (hab : a ≠ b)
    (hfresh : ∀ r ∈ s.reports, r.id ≠ s.nextReportId)
    (hg : d.event_groups = some [a, b]) :
    ∃ (body : ReportCreateOut) (s' : State) (out : ReportOut),
      createReport s d = (.r201 body, s') ∧
      getReport s' body.id = .r200 out ∧
      (∀ g : Nat, g ∈ out.event_groups ↔ (g = a ∨ g = b)) := by
  have hlen := length_filter_pair hnd ha hb hab
  have hval : validate_event_groups s (some [a, b]) = .ok () := by
    simp only [validate_event_groups]
    rw [if_neg (by simp), if_neg (by rw [hlen]; simp)]
  refine ⟨{ id := s.nextReportId, name := d.data.name },
    { s with
        reports := s.reports ++
          [{ id := s.nextReportId, data := d.data
             event_groups := (s.groups.map (·.id)).filter (fun i => ([a, b] : List Nat).contains i)
             created := s.clock, updated := s.clock }]
        nextReportId := s.nextReportId + 1, clock := s.clock + 1 },
    reportToOut { id := s.nextReportId, data := d.data
                  event_groups := (s.groups.map (·.id)).filter (fun i => ([a, b] : List Nat).contains i)
                  created := s.clock, updated := s.clock }, ?_, ?_, ?_⟩
  · simp only [createReport, hg, hval]
    rw [if_neg (by simp)]
  · show getReport _ s.nextReportId = _
    simp only [getReport]
    rw [List.find?_append,
        List.find?_eq_none.mpr (fun r hr => by simpa using hfresh r hr)]
    simp
  · intro g
    simp only [reportToOut, List.mem_filter]
    constructor
    · rintro ⟨-, hmem⟩
      simpa using hmem
    · rintro (rfl | rfl)
      · exact ⟨ha, by simp⟩
      · exact ⟨hb, by simp⟩

/-- A database with two event groups (ids 1 and 2). -/
def twoGroupState : State :=
  { initState with
      groups := [{ id := 1, name := "g1", events := [], created := 0, updated := 0 },
                 { id := 2, name := "g2", events := [], created := 0, updated := 0 }]
      nextGroupId := 3 }

/-- **C7**, witness: the round trip on groups 1 and 2. -/
theorem claim_C7_witness :
    ∃ (body : ReportCreateOut) (s' : State) (out : ReportOut),
      createReport twoGroupState { data := sampleReportData, event_groups := some [1, 2] } =
        (.r201 body, s') ∧
      getReport s' body.id = .r200 out ∧
      (∀ g : Nat, g ∈ out.event_groups ↔ (g = 1 ∨ g = 2)) :=
  claim_C7 twoGroupState 1 2 _ (by decide) (by decide) (by decide) (by decide)
    (by simp [twoGroupState, initState]) rfl

/-- **C9.** A link-report-to-event-group request for an existing report
and an existing event group that is already in the report's
`event_groups` is answered 422 with the already-linked message and the
state — in particular the report's event-group set — is unchanged:
re-linking is rejected, not an idempotent success. -/
theorem claim_C9 (s : State) (rid gid : Nat) (r : ReportRec) (g : GroupRec)
    (hr : s.reports.find? (fun r' => r'.id == rid) = some r)
    (hg : s.groups.find? (fun g' => g'.id == gid) = some g)
    (hmem : gid ∈ r.event_groups) :
    linkReportToEventGroup s rid gid =
      (.r422 "Event group is already linked to this report", s) := by
  have hcont : r.event_groups.contains gid = true := by simpa using hmem
  simp only [linkReportToEventGroup, hr, hg]
  rw [if_pos hcont]

/-- A database where report 1 already links event group 1. -/
def alreadyLinkedState : State :=
  { initState with
      groups := [{ id := 1, name := "g", events := [], created := 0, updated := 0 }]
      reports := [{ sampleReport with event_groups := [1] }]
      nextGroupId := 2, nextReportId := 2 }

/-- **C9**, witness: re-linking group 1 to report 1. -/
theorem claim_C9_witness :
    linkReportToEventGroup alreadyLinkedState 1 1 =
      (.r422 "Event group is already linked to this report", alreadyLinkedState) :=
  claim_C9 alreadyLinkedState 1 1 _ _ rfl rfl (by decide)

/-- **C10.** Every successful ring-event response body is a
`RingEventSchemaOut` value, whose serialization carries exactly the
fields id, name, description, is_valid, latitude and longitude — never a
radius member — although `RingEventSchemaIn` requires `radius` (the
`RingIn` record has no default for it) and rejects a negative one with
422 and no write. -/
theorem claim_C10 :
    (∀ o : RingOut,
       (ringOutJson o).map Prod.fst =
         ["id", "name", "description", "is_valid", "latitude", "longitude"] ∧
       "radius" ∉ (ringOutJson o).map Prod.fst) ∧
    (∀ (s : State) (d : RingIn) (body : RingOut) (s' : State),
       createRingEvent s d = (.r201 body, s') →
       body = ringRecToOut { id := s.nextEventId, name := d.name
                             description := d.description, is_valid := d.is_valid
                             latitude := d.latitude, longitude := d.longitude
                             radius := d.radius }) ∧
    (∀ (s : State) (id : Nat) (r : RingRec), s.rings.find? (fun r' => r'.id == id) = some r →
       getRingEvent s id = .r200 (ringRecToOut r)) ∧
    (∀ s : State, listRingEvents s = s.rings.map ringRecToOut) ∧
    (∀ (s : State) (d : RingIn), d.radius < 0 → ∃ m, createRingEvent s d = (.r422 m, s)) := by
  refine ⟨?_, ?_, ?_, ?_, ?_⟩
  · intro o
    exact ⟨rfl, by simp [ringOutJson]⟩
  · intro s d body s' h
    simp only [createRingEvent] at h
    split at h
    · exact absurd h (by simp)
    · rw [Prod.mk.injEq] at h
      cases h.1
      rfl
  · intro s id r h
    simp only [getRingEvent]
    rw [h]
  · intro s
    rfl
  · intro s d hrad
    cases hv : validateRingIn d with
    | error e => exact ⟨e, by simp only [createRingEvent, hv]⟩
    | ok u =>
      exfalso
      simp only [validateRingIn] at hv
      split at hv
      · exact absurd hv (by simp)
      · split at hv
        · exact absurd hv (by simp)
        · split at hv
          · exact absurd hv (by simp)
          · split at hv
            · exact absurd hv (by simp)
            · split at hv
              · exact absurd hv (by simp)
              next hge => exact hge (by linarith)

/-- A valid ring-event request. -/
def ringIn0 : RingIn :=
  { name := "e", description := "d", is_valid := true
    latitude := 10, longitude := 20, radius := 5 }

/-- The stored row `ringIn0` produces. -/
def ringRow0 : RingRec :=
  { id := 1, name := "e", description := "d", is_valid := true
    latitude := 10, longitude := 20, radius := 5 }

/-- A database holding that one ring event. -/
def oneRingState : State :=
  { initState with events := [1], rings := [ringRow0], nextEventId := 2 }

/-- **C10**, witness: the create/get serializations and the
negative-radius rejection at concrete inputs. -/
theorem claim_C10_witness :
    (ringRecToOut ringRow0 =
       ringRecToOut { id := 1, name := "e", description := "d", is_valid := true
                      latitude := 10, longitude := 20, radius := 5 }) ∧
    getRingEvent oneRingState 1 = .r200 (ringRecToOut ringRow0) ∧
    (∃ m, createRingEvent initState { ringIn0 with radius := -1 } =
      (.r422 m, initState)) :=
  ⟨claim_C10.2.1 initState ringIn0 (ringRecToOut ringRow0) _ rfl,
   claim_C10.2.2.1 oneRingState 1 ringRow0 rfl,
   claim_C10.2.2.2.2 initState { ringIn0 with radius := -1 } (by norm_num [ringIn0])⟩

end ReportingBackend
